import Mathlib

/-!
# terraform-provider-type: the `type_validate_json` data source

A shallow embedding of `TypeValidateJsonDataSource.Read`
(`internal/provider/validate_json_data_source.go`) and the properties of its
control flow: which diagnostics it reports and when it writes the response
state.

The JSON Schema library (`github.com/santhosh-tekuri/jsonschema/v6`) is not
part of the repository.  It is taken as a parameter: a record of the five
library entry points that `Read` calls.  Go `error` values are represented by
the text their `Error()` method returns, which is also what the `%s` verb of
`fmt.Sprintf` prints.

The plugin framework values that `Read` touches (`types.String`,
`types.Bool`, `diag.Diagnostics`, the response state) are modelled directly.
-/

namespace TypeValidateJson

/-! ## Framework values -/

/-- Framework value `types.String`: null, unknown, or a known string. -/
inductive TfString where
  | null
  | unknown
  | value (s : String)
deriving DecidableEq, Repr

/-- Framework value `types.Bool`: null, unknown, or a known boolean. -/
inductive TfBool where
  | null
  | unknown
  | value (b : Bool)
deriving DecidableEq, Repr

/-- Method `types.String.ValueString`: the known string, and the empty string
for a null or unknown value. -/
def TfString.ValueString : TfString → String
  | .value s => s
  | _ => ""

/-- Method `types.String.IsNull`. -/
def TfString.IsNull : TfString → Bool
  | .null => true
  | _ => false

/-- Method `types.Bool.ValueBool`: the known boolean, and `false` for a null
or unknown value. -/
def TfBool.ValueBool : TfBool → Bool
  | .value b => b
  | _ => false

/-- Method `types.Bool.IsNull`. -/
def TfBool.IsNull : TfBool → Bool
  | .null => true
  | _ => false

/-- Constructor `types.StringValue`. -/
def StringValue (s : String) : TfString := .value s

/-- Constructor `types.BoolValue`. -/
def BoolValue (b : Bool) : TfBool := .value b

/-! ## Diagnostics -/

/-- Severity of a diagnostic (`diag.Severity`). -/
inductive Severity where
  | Invalid
  | Error
  | Warning
deriving DecidableEq, Repr

/-- One diagnostic: severity, summary and detail. -/
structure Diagnostic where
  Severity : Severity
  Summary : String
  Detail : String
deriving DecidableEq, Repr

/-- Constructor `diag.NewErrorDiagnostic`. -/
def NewErrorDiagnostic (summary detail : String) : Diagnostic :=
  { Severity := .Error, Summary := summary, Detail := detail }

/-- The collection `diag.Diagnostics`, in the order the diagnostics were added. -/
abbrev Diagnostics := List Diagnostic

/-- Method `Diagnostics.Contains`: some element equals the given diagnostic. -/
def Diagnostics.Contains (diags : Diagnostics) (d : Diagnostic) : Bool :=
  diags.any (fun x => decide (x = d))

/-- Method `Diagnostics.Append`: adds the given diagnostics one by one, skipping
every one that the collection already contains. -/
def Diagnostics.Append (diags : Diagnostics) (more : List Diagnostic) : Diagnostics :=
  more.foldl (fun acc d => if Diagnostics.Contains acc d then acc else acc ++ [d]) diags

/-- Method `Diagnostics.AddError`: appends a new error diagnostic. -/
def Diagnostics.AddError (diags : Diagnostics) (summary detail : String) : Diagnostics :=
  Diagnostics.Append diags [NewErrorDiagnostic summary detail]

/-- Method `Diagnostics.HasError`: some element has error severity. -/
def Diagnostics.HasError (diags : Diagnostics) : Bool :=
  diags.any (fun d => decide (d.Severity = Severity.Error))

/-! ## Data source model, request and response -/

/-- The Go struct `TypeValidateJsonDataSourceModel`. -/
structure TypeValidateJsonDataSourceModel where
  JsonSchema : TfString
  JsonObject : TfString
  IsValid : TfBool
  ValidationErrors : TfString
  FailOnValidationError : TfBool
deriving DecidableEq, Repr

/-- The configuration of one `type_validate_json` block.  The data source
schema declares `json_schema` and `json_object` as required,
`fail_on_validation_error` as optional, and `is_valid` and `validation_errors`
as computed only, so a configuration carries a value for the first three
attributes and none for the computed ones. -/
structure Config where
  JsonSchema : TfString
  JsonObject : TfString
  FailOnValidationError : TfBool
deriving DecidableEq, Repr

/-- The call `req.Config.Get(ctx, &data)`: fills the model from the
configuration.  The computed attributes have no configured value and are
read as null.  The struct tags match the schema, so no diagnostic is
reported. -/
def Config.Get (c : Config) : TypeValidateJsonDataSourceModel × Diagnostics :=
  ({ JsonSchema := c.JsonSchema
     JsonObject := c.JsonObject
     IsValid := .null
     ValidationErrors := .null
     FailOnValidationError := c.FailOnValidationError }, [])

/-- The request `datasource.ReadRequest`. -/
structure ReadRequest where
  Config : Config
deriving DecidableEq, Repr

/-- The response `datasource.ReadResponse`.  `State` is `none` as long as
`State.Set` has not been called, and holds the written model afterwards. -/
structure ReadResponse where
  Diagnostics : Diagnostics
  State : Option TypeValidateJsonDataSourceModel
deriving DecidableEq, Repr

/-- The call `resp.State.Set(ctx, &data)`: stores the model in the response
state.  The model matches the schema, so no diagnostic is reported. -/
def StateSet (data : TypeValidateJsonDataSourceModel) :
    Option TypeValidateJsonDataSourceModel × Diagnostics :=
  (some data, [])

/-! ## The JSON Schema library interface -/

/-- The entry points of the `jsonschema` package used by `Read`.  `J` is the
type of parsed JSON documents, `C` the compiler with its registered
resources, `S` a compiled schema.  An error is the text of its `Error()`. -/
structure JsonSchemaLib (J C S : Type) where
  /-- Function `jsonschema.UnmarshalJSON` applied to a reader over the text. -/
  UnmarshalJSON : String → Except String J
  /-- Function `jsonschema.NewCompiler`. -/
  NewCompiler : C
  /-- Method `Compiler.AddResource`: the compiler with the resource added, or an error. -/
  AddResource : C → String → J → Except String C
  /-- Method `Compiler.Compile`. -/
  Compile : C → String → Except String S
  /-- Method `Schema.Validate`: `none` for a nil error, otherwise the error text. -/
  Validate : S → J → Option String

/-! ## The read handler -/

/-- The method `TypeValidateJsonDataSource.Read`, as a function from the
response it is handed to the response it leaves behind. -/
def Read {J C S : Type} (lib : JsonSchemaLib J C S) (req : ReadRequest)
    (resp : ReadResponse) : ReadResponse :=
  let (data, getDiags) := req.Config.Get
  let resp : ReadResponse :=
    { resp with Diagnostics := Diagnostics.Append resp.Diagnostics getDiags }
  if Diagnostics.HasError resp.Diagnostics then resp else
  match lib.UnmarshalJSON data.JsonSchema.ValueString with
  | .error err =>
    { resp with Diagnostics :=
        (Diagnostics.AddError resp.Diagnostics "Schema Error"
          ("Unable to read schema, got error: " ++ err)) }
  | .ok schema =>
  match lib.UnmarshalJSON data.JsonObject.ValueString with
  | .error err =>
    { resp with Diagnostics :=
        (Diagnostics.AddError resp.Diagnostics "Schema Error"
          ("Unable to read data, got error: " ++ err)) }
  | .ok jsonData =>
  let schemaRef := "schema.json"
  let compiler := lib.NewCompiler
  match lib.AddResource compiler schemaRef schema with
  | .error err =>
    { resp with Diagnostics :=
        (Diagnostics.AddError resp.Diagnostics "Schema Error"
          ("Unable to add JSON schema to compiler, got error: " ++ err)) }
  | .ok compiler =>
  match lib.Compile compiler schemaRef with
  | .error err =>
    { resp with Diagnostics :=
        (Diagnostics.AddError resp.Diagnostics "Schema Error"
          ("Unable to compile schema, got error: " ++ err)) }
  | .ok compiledSchema =>
  let validationErr := lib.Validate compiledSchema jsonData
  let resp : ReadResponse :=
    match data.FailOnValidationError.ValueBool, validationErr with
    | true, some msg =>
      { resp with Diagnostics := Diagnostics.AddError resp.Diagnostics "Validation Error" msg }
    | _, _ => resp
  let data : TypeValidateJsonDataSourceModel :=
    match validationErr with
    | some msg => { data with ValidationErrors := StringValue msg }
    | none => data
  let data : TypeValidateJsonDataSourceModel :=
    { data with IsValid := BoolValue validationErr.isNone }
  let (state, setDiags) := StateSet data
  { Diagnostics := Diagnostics.Append resp.Diagnostics setDiags, State := state }

/-- The model `Read` hands to `State.Set` when the validator returned `v`
(lines 113 to 117 applied to the model read from the configuration). -/
def writtenModel (c : Config) (v : Option String) : TypeValidateJsonDataSourceModel :=
  { JsonSchema := c.JsonSchema
    JsonObject := c.JsonObject
    IsValid := TfBool.value v.isNone
    ValidationErrors := match v with
      | some msg => TfString.value msg
      | none => TfString.null
    FailOnValidationError := c.FailOnValidationError }

/-- The response the framework hands to `Read`: no diagnostics, state not yet set. -/
def ReadResponse.fresh : ReadResponse := { Diagnostics := [], State := none }

/-! ## A small library instance

An instance of the library interface on the four JSON texts `true`, `false`,
`null` and `1`, with the JSON Schema meaning of the boolean schemas: `true`
accepts every document, `false` rejects every document, and a schema that is
neither an object nor a boolean does not compile.  It serves to instantiate the
theorems at concrete inputs. -/

/-- Parsed documents of the small instance: the four accepted texts. -/
def stubUnmarshalJSON (s : String) : Except String String :=
  if s = "true" ∨ s = "false" ∨ s = "null" ∨ s = "1" then .ok s
  else .error "invalid character"

/-- Registering a resource in the small instance fails when the location is taken. -/
def stubAddResource (c : List (String × String)) (url : String) (doc : String) :
    Except String (List (String × String)) :=
  if c.any (fun p => decide (p.1 = url)) then .error "resource already exists"
  else .ok ((url, doc) :: c)

/-- Compilation in the small instance: only the boolean schemas compile. -/
def stubCompile (c : List (String × String)) (loc : String) : Except String Bool :=
  match c.find? (fun p => decide (p.1 = loc)) with
  | none => .error "resource not found"
  | some (_, doc) =>
    if doc = "true" then .ok true
    else if doc = "false" then .ok false
    else .error "schema must be an object or a boolean"

/-- Validation in the small instance: the schema `false` rejects every document. -/
def stubValidate (s : Bool) (_v : String) : Option String :=
  if s then none else some "false schema"

/-- The small library instance. -/
def stubLib : JsonSchemaLib String (List (String × String)) Bool where
  UnmarshalJSON := stubUnmarshalJSON
  NewCompiler := []
  AddResource := stubAddResource
  Compile := stubCompile
  Validate := stubValidate

/-- The request with its `fail_on_validation_error` attribute replaced. -/
def withPolicy (req : ReadRequest) (failOn : TfBool) : ReadRequest :=
  { Config := { req.Config with FailOnValidationError := failOn } }

/-- The request with its `json_object` attribute replaced. -/
def withJsonObject (req : ReadRequest) (dataText : TfString) : ReadRequest :=
  { Config := { req.Config with JsonObject := dataText } }

/-- A request built from a schema text, a data text and a policy value. -/
def mkRequest (schemaText dataText : String) (failOn : TfBool) : ReadRequest :=
  { Config := { JsonSchema := .value schemaText, JsonObject := .value dataText,
                FailOnValidationError := failOn } }

/-! ## Lemmas on diagnostics -/

/-- Appending no diagnostics changes nothing. -/
theorem Diagnostics.Append_nil (diags : Diagnostics) : Diagnostics.Append diags [] = diags := rfl

/-- A collection without errors contains no error diagnostic. -/
theorem Diagnostics.Contains_error_of_clean (diags : Diagnostics) (summary detail : String)
    (h : Diagnostics.HasError diags = false) :
    Diagnostics.Contains diags (NewErrorDiagnostic summary detail) = false := by
  induction diags with
  | nil => rfl
  | cons d ds ih =>
    simp only [Diagnostics.HasError, List.any_cons, Bool.or_eq_false_iff,
      decide_eq_false_iff_not] at h
    have ih2 := ih (by simpa [Diagnostics.HasError] using h.2)
    simp only [Diagnostics.Contains, List.any_cons, Bool.or_eq_false_iff,
      decide_eq_false_iff_not]
    refine ⟨?_, by simpa [Diagnostics.Contains] using ih2⟩
    intro hd
    exact h.1 (by rw [hd]; rfl)

/-- On a collection without errors `AddError` is never a duplicate: it adds one
element at the end. -/
theorem Diagnostics.AddError_of_clean (diags : Diagnostics) (summary detail : String)
    (h : Diagnostics.HasError diags = false) :
    Diagnostics.AddError diags summary detail = diags ++ [NewErrorDiagnostic summary detail] := by
  simp [Diagnostics.AddError, Diagnostics.Append,
    Diagnostics.Contains_error_of_clean diags summary detail h]

/-! ## The shape of a written state -/

/-- A state written by `Read` is the model read from the configuration with
`is_valid` and `validation_errors` filled in from some validator result. -/
theorem Read_state_written {J C S : Type} (lib : JsonSchemaLib J C S) (req : ReadRequest)
    (resp : ReadResponse) (st : TypeValidateJsonDataSourceModel)
    (hunset : resp.State = none) (hwritten : (Read lib req resp).State = some st) :
    ∃ v : Option String, st = writtenModel req.Config v := by
  by_cases hE : Diagnostics.HasError resp.Diagnostics = true
  · simp [Read, Config.Get, Diagnostics.Append_nil, hE, hunset] at hwritten
  · cases h1 : lib.UnmarshalJSON req.Config.JsonSchema.ValueString with
    | error e => simp [Read, Config.Get, Diagnostics.Append_nil, hE, h1, hunset] at hwritten
    | ok schema =>
      cases h2 : lib.UnmarshalJSON req.Config.JsonObject.ValueString with
      | error e =>
        simp [Read, Config.Get, Diagnostics.Append_nil, hE, h1, h2, hunset] at hwritten
      | ok jsonData =>
        cases h3 : lib.AddResource lib.NewCompiler "schema.json" schema with
        | error e =>
          simp [Read, Config.Get, Diagnostics.Append_nil, hE, h1, h2, h3, hunset] at hwritten
        | ok compiler =>
          cases h4 : lib.Compile compiler "schema.json" with
          | error e =>
            simp [Read, Config.Get, Diagnostics.Append_nil, hE, h1, h2, h3, h4, hunset]
              at hwritten
          | ok compiledSchema =>
            refine ⟨lib.Validate compiledSchema jsonData, ?_⟩
            cases hv : lib.Validate compiledSchema jsonData with
            | none =>
              simp [Read, Config.Get, Diagnostics.Append_nil, StateSet, hE, h1, h2, h3, h4, hv,
                BoolValue] at hwritten
              simp [writtenModel, ← hwritten]
            | some msg =>
              simp [Read, Config.Get, Diagnostics.Append_nil, StateSet, hE, h1, h2, h3, h4, hv,
                BoolValue, StringValue] at hwritten
              simp [writtenModel, ← hwritten]

/-- Claim C1 (mutual exclusivity): whenever `Read` writes the response state,
`validation_errors` is non-null in the written state if and only if `is_valid`
is false there.  This holds for every library behaviour, every schema text,
data text and policy value. -/
theorem C1_mutual_exclusivity {J C S : Type} (lib : JsonSchemaLib J C S) (req : ReadRequest)
    (resp : ReadResponse) (st : TypeValidateJsonDataSourceModel)
    (hunset : resp.State = none) (hwritten : (Read lib req resp).State = some st) :
    st.ValidationErrors.IsNull = false ↔ st.IsValid = TfBool.value false := by
  obtain ⟨v, rfl⟩ := Read_state_written lib req resp st hunset hwritten
  cases v <;> simp [writtenModel, TfString.IsNull]

/-- Witness for C1: the state written for schema `false` and document `null`. -/
theorem C1_mutual_exclusivity_witness :
    (TfString.value "false schema").IsNull = false ↔ TfBool.value false = TfBool.value false :=
  C1_mutual_exclusivity stubLib (mkRequest "false" "null" (TfBool.value false))
    ReadResponse.fresh
    { JsonSchema := TfString.value "false"
      JsonObject := TfString.value "null"
      IsValid := TfBool.value false
      ValidationErrors := TfString.value "false schema"
      FailOnValidationError := TfBool.value false } rfl rfl

/-- Claim C10 (inputs are echoed unchanged): whenever `Read` writes the response
state, the written `json_schema`, `json_object` and `fail_on_validation_error`
are the values read from the configuration; the written model differs from the
model read from the configuration in `is_valid` and `validation_errors` only. -/
theorem C10_inputs_echoed {J C S : Type} (lib : JsonSchemaLib J C S) (req : ReadRequest)
    (resp : ReadResponse) (st : TypeValidateJsonDataSourceModel)
    (hunset : resp.State = none) (hwritten : (Read lib req resp).State = some st) :
    st.JsonSchema = req.Config.JsonSchema ∧
    st.JsonObject = req.Config.JsonObject ∧
    st.FailOnValidationError = req.Config.FailOnValidationError ∧
    st = { req.Config.Get.1 with IsValid := st.IsValid
                                 ValidationErrors := st.ValidationErrors } := by
  obtain ⟨v, rfl⟩ := Read_state_written lib req resp st hunset hwritten
  simp [writtenModel, Config.Get]

/-- Witness for C10: the state written for schema `true`, document `1`, policy omitted. -/
theorem C10_inputs_echoed_witness :
    TfString.value "true" = (mkRequest "true" "1" TfBool.null).Config.JsonSchema ∧
    TfString.value "1" = (mkRequest "true" "1" TfBool.null).Config.JsonObject ∧
    TfBool.null = (mkRequest "true" "1" TfBool.null).Config.FailOnValidationError ∧
    ({ JsonSchema := TfString.value "true"
       JsonObject := TfString.value "1"
       IsValid := TfBool.value true
       ValidationErrors := TfString.null
       FailOnValidationError := TfBool.null } : TypeValidateJsonDataSourceModel)
      = { (mkRequest "true" "1" TfBool.null).Config.Get.1 with
            IsValid := TfBool.value true
            ValidationErrors := TfString.null } :=
  C10_inputs_echoed stubLib (mkRequest "true" "1" TfBool.null) ReadResponse.fresh
    { JsonSchema := TfString.value "true"
      JsonObject := TfString.value "1"
      IsValid := TfBool.value true
      ValidationErrors := TfString.null
      FailOnValidationError := TfBool.null } rfl rfl

/-! ## Outcomes of `Read` once the schema has compiled -/

/-- Claim C5 (valid outcome): when both texts parse, the schema is registered
and compiles and the validator accepts the data, then for every policy value
`Read` adds no diagnostic and writes a state with `is_valid = true` and
`validation_errors` null; the three inputs are written as configured. -/
theorem C5_valid_outcome {J C S : Type} (lib : JsonSchemaLib J C S) (req : ReadRequest)
    (resp : ReadResponse) (schema jsonData : J) (compiler : C) (compiledSchema : S)
    (hclean : Diagnostics.HasError resp.Diagnostics = false)
    (hschema : lib.UnmarshalJSON req.Config.JsonSchema.ValueString = .ok schema)
    (hdata : lib.UnmarshalJSON req.Config.JsonObject.ValueString = .ok jsonData)
    (hadd : lib.AddResource lib.NewCompiler "schema.json" schema = .ok compiler)
    (hcompile : lib.Compile compiler "schema.json" = .ok compiledSchema)
    (hvalid : lib.Validate compiledSchema jsonData = none) :
    (Read lib req resp).Diagnostics = resp.Diagnostics ∧
    (Read lib req resp).State = some
      { JsonSchema := req.Config.JsonSchema
        JsonObject := req.Config.JsonObject
        IsValid := TfBool.value true
        ValidationErrors := TfString.null
        FailOnValidationError := req.Config.FailOnValidationError } := by
  simp [Read, Config.Get, StateSet, Diagnostics.Append_nil, hclean, hschema, hdata, hadd,
    hcompile, hvalid, BoolValue]

/-- Witness for C5: the schema `true` accepts the document `null`. -/
theorem C5_valid_outcome_witness :
    (Read stubLib (mkRequest "true" "null" (TfBool.value true)) ReadResponse.fresh).Diagnostics
      = [] ∧
    (Read stubLib (mkRequest "true" "null" (TfBool.value true)) ReadResponse.fresh).State = some
      { JsonSchema := TfString.value "true"
        JsonObject := TfString.value "null"
        IsValid := TfBool.value true
        ValidationErrors := TfString.null
        FailOnValidationError := TfBool.value true } :=
  C5_valid_outcome stubLib (mkRequest "true" "null" (TfBool.value true)) ReadResponse.fresh
    "true" "null" [("schema.json", "true")] true rfl rfl rfl rfl rfl rfl

/-- Claim C4 (report, do not abort): when both texts parse, the schema is
registered and compiles, the validator rejects the data with text `m`, and the
policy reads as false (the value false, or null or unknown), then `Read` adds no
diagnostic and writes a state with `is_valid = false` and
`validation_errors = m`. -/
theorem C4_report_without_abort {J C S : Type} (lib : JsonSchemaLib J C S) (req : ReadRequest)
    (resp : ReadResponse) (schema jsonData : J) (compiler : C) (compiledSchema : S)
    (m : String)
    (hclean : Diagnostics.HasError resp.Diagnostics = false)
    (hschema : lib.UnmarshalJSON req.Config.JsonSchema.ValueString = .ok schema)
    (hdata : lib.UnmarshalJSON req.Config.JsonObject.ValueString = .ok jsonData)
    (hadd : lib.AddResource lib.NewCompiler "schema.json" schema = .ok compiler)
    (hcompile : lib.Compile compiler "schema.json" = .ok compiledSchema)
    (hinvalid : lib.Validate compiledSchema jsonData = some m)
    (hpolicy : req.Config.FailOnValidationError.ValueBool = false) :
    (Read lib req resp).Diagnostics = resp.Diagnostics ∧
    (Read lib req resp).State = some
      { JsonSchema := req.Config.JsonSchema
        JsonObject := req.Config.JsonObject
        IsValid := TfBool.value false
        ValidationErrors := TfString.value m
        FailOnValidationError := req.Config.FailOnValidationError } := by
  simp [Read, Config.Get, StateSet, Diagnostics.Append_nil, hclean, hschema, hdata, hadd,
    hcompile, hinvalid, hpolicy, BoolValue, StringValue]

/-- Witness for C4: the schema `false` rejects the document `null`, policy false. -/
theorem C4_report_without_abort_witness :
    (Read stubLib (mkRequest "false" "null" (TfBool.value false)) ReadResponse.fresh).Diagnostics
      = [] ∧
    (Read stubLib (mkRequest "false" "null" (TfBool.value false)) ReadResponse.fresh).State = some
      { JsonSchema := TfString.value "false"
        JsonObject := TfString.value "null"
        IsValid := TfBool.value false
        ValidationErrors := TfString.value "false schema"
        FailOnValidationError := TfBool.value false } :=
  C4_report_without_abort stubLib (mkRequest "false" "null" (TfBool.value false))
    ReadResponse.fresh "false" "null" [("schema.json", "false")] false "false schema"
    rfl rfl rfl rfl rfl rfl rfl

/-- Claim C3 (policy escalation message): when both texts parse, the schema is
registered and compiles, the validator rejects the data with text `m`, and the
policy is true, then `Read` adds exactly one diagnostic, an error with summary
"Validation Error" and detail exactly `m`; and `m` is the text that the same
schema and data put in `validation_errors` when the policy is false. -/
theorem C3_escalation_message {J C S : Type} (lib : JsonSchemaLib J C S) (req : ReadRequest)
    (resp : ReadResponse) (schema jsonData : J) (compiler : C) (compiledSchema : S)
    (m : String)
    (hclean : Diagnostics.HasError resp.Diagnostics = false)
    (hschema : lib.UnmarshalJSON req.Config.JsonSchema.ValueString = .ok schema)
    (hdata : lib.UnmarshalJSON req.Config.JsonObject.ValueString = .ok jsonData)
    (hadd : lib.AddResource lib.NewCompiler "schema.json" schema = .ok compiler)
    (hcompile : lib.Compile compiler "schema.json" = .ok compiledSchema)
    (hinvalid : lib.Validate compiledSchema jsonData = some m)
    (hpolicy : req.Config.FailOnValidationError = TfBool.value true) :
    (Read lib req resp).Diagnostics
      = resp.Diagnostics ++ [NewErrorDiagnostic "Validation Error" m] ∧
    Option.map (fun st => st.ValidationErrors)
      (Read lib { Config := { req.Config with FailOnValidationError := TfBool.value false } }
        resp).State = some (TfString.value m) := by
  have hadd2 := Diagnostics.AddError_of_clean resp.Diagnostics "Validation Error" m hclean
  simp [Read, Config.Get, StateSet, Diagnostics.Append_nil, hclean, hschema, hdata, hadd,
    hcompile, hinvalid, hpolicy, BoolValue, StringValue, TfBool.ValueBool, hadd2]

/-- Witness for C3: the schema `false` rejects the document `null`, policy true. -/
theorem C3_escalation_message_witness :
    (Read stubLib (mkRequest "false" "null" (TfBool.value true)) ReadResponse.fresh).Diagnostics
      = [NewErrorDiagnostic "Validation Error" "false schema"] ∧
    Option.map (fun st => st.ValidationErrors)
      (Read stubLib (mkRequest "false" "null" (TfBool.value false)) ReadResponse.fresh).State
      = some (TfString.value "false schema") :=
  C3_escalation_message stubLib (mkRequest "false" "null" (TfBool.value true))
    ReadResponse.fresh "false" "null" [("schema.json", "false")] false "false schema"
    rfl rfl rfl rfl rfl rfl rfl

/-- Claim C2 (policy escalation and the response state), evaluated on the code:
when both texts parse, the schema is registered and compiles, the validator
rejects the data with text `m`, and the policy is true, `Read` still calls
`State.Set` after adding the error: the response state is written, with
`is_valid = false` and `validation_errors = m`. -/
theorem C2_escalation_writes_state {J C S : Type} (lib : JsonSchemaLib J C S)
    (req : ReadRequest) (resp : ReadResponse) (schema jsonData : J) (compiler : C)
    (compiledSchema : S) (m : String)
    (hclean : Diagnostics.HasError resp.Diagnostics = false)
    (hschema : lib.UnmarshalJSON req.Config.JsonSchema.ValueString = .ok schema)
    (hdata : lib.UnmarshalJSON req.Config.JsonObject.ValueString = .ok jsonData)
    (hadd : lib.AddResource lib.NewCompiler "schema.json" schema = .ok compiler)
    (hcompile : lib.Compile compiler "schema.json" = .ok compiledSchema)
    (hinvalid : lib.Validate compiledSchema jsonData = some m)
    (hpolicy : req.Config.FailOnValidationError = TfBool.value true) :
    Diagnostics.HasError (Read lib req resp).Diagnostics = true ∧
    (Read lib req resp).State = some
      { JsonSchema := req.Config.JsonSchema
        JsonObject := req.Config.JsonObject
        IsValid := TfBool.value false
        ValidationErrors := TfString.value m
        FailOnValidationError := TfBool.value true } := by
  have hadd2 := Diagnostics.AddError_of_clean resp.Diagnostics "Validation Error" m hclean
  have hread : Read lib req resp =
      { Diagnostics := resp.Diagnostics ++ [NewErrorDiagnostic "Validation Error" m]
        State := some
          { JsonSchema := req.Config.JsonSchema
            JsonObject := req.Config.JsonObject
            IsValid := TfBool.value false
            ValidationErrors := TfString.value m
            FailOnValidationError := TfBool.value true } } := by
    simp [Read, Config.Get, StateSet, Diagnostics.Append_nil, hclean, hschema, hdata, hadd,
      hcompile, hinvalid, hpolicy, BoolValue, StringValue, TfBool.ValueBool, hadd2]
  rw [hread]
  simp [Diagnostics.HasError, NewErrorDiagnostic]

/-- Witness for C2: schema `false`, document `null`, policy true; the handed
response has no state and the returned response has one. -/
theorem C2_escalation_writes_state_witness :
    ReadResponse.fresh.State = none ∧
    Diagnostics.HasError
      (Read stubLib (mkRequest "false" "null" (TfBool.value true)) ReadResponse.fresh).Diagnostics
      = true ∧
    (Read stubLib (mkRequest "false" "null" (TfBool.value true)) ReadResponse.fresh).State = some
      { JsonSchema := TfString.value "false"
        JsonObject := TfString.value "null"
        IsValid := TfBool.value false
        ValidationErrors := TfString.value "false schema"
        FailOnValidationError := TfBool.value true } :=
  ⟨rfl, C2_escalation_writes_state stubLib (mkRequest "false" "null" (TfBool.value true))
    ReadResponse.fresh "false" "null" [("schema.json", "false")] false "false schema"
    rfl rfl rfl rfl rfl rfl rfl⟩

/-- Claim C9 (default policy is false): for every library behaviour and every
schema and data text, `Read` with `fail_on_validation_error` null yields the same
diagnostics, the same written `is_valid` and the same written
`validation_errors` as `Read` with `fail_on_validation_error = false`; and when
the validator rejects the data, `Read` with the attribute null adds no
diagnostic. -/
theorem C9_default_policy_false {J C S : Type} (lib : JsonSchemaLib J C S) (req : ReadRequest)
    (resp : ReadResponse) :
    (Read lib (withPolicy req TfBool.null) resp).Diagnostics
      = (Read lib (withPolicy req (TfBool.value false)) resp).Diagnostics ∧
    Option.map (fun st => st.IsValid) (Read lib (withPolicy req TfBool.null) resp).State
      = Option.map (fun st => st.IsValid)
          (Read lib (withPolicy req (TfBool.value false)) resp).State ∧
    Option.map (fun st => st.ValidationErrors) (Read lib (withPolicy req TfBool.null) resp).State
      = Option.map (fun st => st.ValidationErrors)
          (Read lib (withPolicy req (TfBool.value false)) resp).State ∧
    (∀ (schema jsonData : J) (compiler : C) (compiledSchema : S) (m : String),
      Diagnostics.HasError resp.Diagnostics = false →
      lib.UnmarshalJSON req.Config.JsonSchema.ValueString = .ok schema →
      lib.UnmarshalJSON req.Config.JsonObject.ValueString = .ok jsonData →
      lib.AddResource lib.NewCompiler "schema.json" schema = .ok compiler →
      lib.Compile compiler "schema.json" = .ok compiledSchema →
      lib.Validate compiledSchema jsonData = some m →
      (Read lib (withPolicy req TfBool.null) resp).Diagnostics = resp.Diagnostics) := by
  refine ⟨?_, ?_, ?_, ?_⟩
  · by_cases hE : Diagnostics.HasError resp.Diagnostics = true
    · simp [Read, withPolicy, Config.Get, Diagnostics.Append_nil, hE]
    · cases h1 : lib.UnmarshalJSON req.Config.JsonSchema.ValueString with
      | error e => simp [Read, withPolicy, Config.Get, Diagnostics.Append_nil, hE, h1]
      | ok schema =>
        cases h2 : lib.UnmarshalJSON req.Config.JsonObject.ValueString with
        | error e => simp [Read, withPolicy, Config.Get, Diagnostics.Append_nil, hE, h1, h2]
        | ok jsonData =>
          cases h3 : lib.AddResource lib.NewCompiler "schema.json" schema with
          | error e =>
            simp [Read, withPolicy, Config.Get, Diagnostics.Append_nil, hE, h1, h2, h3]
          | ok compiler =>
            cases h4 : lib.Compile compiler "schema.json" with
            | error e =>
              simp [Read, withPolicy, Config.Get, Diagnostics.Append_nil, hE, h1, h2, h3, h4]
            | ok compiledSchema =>
              simp [Read, withPolicy, Config.Get, Diagnostics.Append_nil, StateSet, hE, h1, h2,
                h3, h4, TfBool.ValueBool]
  · by_cases hE : Diagnostics.HasError resp.Diagnostics = true
    · simp [Read, withPolicy, Config.Get, Diagnostics.Append_nil, hE]
    · cases h1 : lib.UnmarshalJSON req.Config.JsonSchema.ValueString with
      | error e => simp [Read, withPolicy, Config.Get, Diagnostics.Append_nil, hE, h1]
      | ok schema =>
        cases h2 : lib.UnmarshalJSON req.Config.JsonObject.ValueString with
        | error e => simp [Read, withPolicy, Config.Get, Diagnostics.Append_nil, hE, h1, h2]
        | ok jsonData =>
          cases h3 : lib.AddResource lib.NewCompiler "schema.json" schema with
          | error e =>
            simp [Read, withPolicy, Config.Get, Diagnostics.Append_nil, hE, h1, h2, h3]
          | ok compiler =>
            cases h4 : lib.Compile compiler "schema.json" with
            | error e =>
              simp [Read, withPolicy, Config.Get, Diagnostics.Append_nil, hE, h1, h2, h3, h4]
            | ok compiledSchema =>
              simp [Read, withPolicy, Config.Get, Diagnostics.Append_nil, StateSet, hE, h1, h2,
                h3, h4, TfBool.ValueBool]
  · by_cases hE : Diagnostics.HasError resp.Diagnostics = true
    · simp [Read, withPolicy, Config.Get, Diagnostics.Append_nil, hE]
    · cases h1 : lib.UnmarshalJSON req.Config.JsonSchema.ValueString with
      | error e => simp [Read, withPolicy, Config.Get, Diagnostics.Append_nil, hE, h1]
      | ok schema =>
        cases h2 : lib.UnmarshalJSON req.Config.JsonObject.ValueString with
        | error e => simp [Read, withPolicy, Config.Get, Diagnostics.Append_nil, hE, h1, h2]
        | ok jsonData =>
          cases h3 : lib.AddResource lib.NewCompiler "schema.json" schema with
          | error e =>
            simp [Read, withPolicy, Config.Get, Diagnostics.Append_nil, hE, h1, h2, h3]
          | ok compiler =>
            cases h4 : lib.Compile compiler "schema.json" with
            | error e =>
              simp [Read, withPolicy, Config.Get, Diagnostics.Append_nil, hE, h1, h2, h3, h4]
            | ok compiledSchema =>
              cases hv : lib.Validate compiledSchema jsonData <;>
                simp [Read, withPolicy, Config.Get, Diagnostics.Append_nil, StateSet, hE, h1,
                  h2, h3, h4, hv, TfBool.ValueBool]
  · intro schema jsonData compiler compiledSchema m hclean hschema hdata hadd hcompile hinvalid
    simp [Read, withPolicy, Config.Get, StateSet, Diagnostics.Append_nil, hclean, hschema,
      hdata, hadd, hcompile, hinvalid, TfBool.ValueBool]

/-- Witness for C9: schema `false`, document `null`, policy omitted: the
validator rejects the data and no diagnostic is added. -/
theorem C9_default_policy_false_witness :
    (Read stubLib (withPolicy (mkRequest "false" "null" TfBool.unknown) TfBool.null)
      ReadResponse.fresh).Diagnostics = ReadResponse.fresh.Diagnostics :=
  (C9_default_policy_false stubLib (mkRequest "false" "null" TfBool.unknown)
    ReadResponse.fresh).2.2.2 "false" "null" [("schema.json", "false")] false "false schema"
    rfl rfl rfl rfl rfl rfl

/-! ## Hard failures before validation -/

/-- Claim C8 (schema parse failure wins and is immediate): when the parser
rejects the schema text with message `m`, then for every data text and every
policy value `Read` adds exactly one diagnostic, an error with summary
"Schema Error" and detail "Unable to read schema, got error: " followed by `m`,
leaves the response state untouched, and returns the same response whatever the
data text is. -/
theorem C8_schema_parse_failure {J C S : Type} (lib : JsonSchemaLib J C S) (req : ReadRequest)
    (resp : ReadResponse) (m : String)
    (hclean : Diagnostics.HasError resp.Diagnostics = false)
    (hschema : lib.UnmarshalJSON req.Config.JsonSchema.ValueString = .error m) :
    (Read lib req resp).Diagnostics = resp.Diagnostics ++
      [NewErrorDiagnostic "Schema Error" ("Unable to read schema, got error: " ++ m)] ∧
    (Read lib req resp).State = resp.State ∧
    ∀ dataText : TfString, Read lib (withJsonObject req dataText) resp = Read lib req resp := by
  have hadd := Diagnostics.AddError_of_clean resp.Diagnostics "Schema Error"
    ("Unable to read schema, got error: " ++ m) hclean
  simp [Read, withJsonObject, Config.Get, Diagnostics.Append_nil, hclean, hschema, hadd]

/-- Witness for C8: the schema text `tru` is rejected, the data text is well formed. -/
theorem C8_schema_parse_failure_witness :
    (Read stubLib (mkRequest "tru" "null" TfBool.null) ReadResponse.fresh).Diagnostics = [] ++
      [NewErrorDiagnostic "Schema Error"
        ("Unable to read schema, got error: " ++ "invalid character")] ∧
    (Read stubLib (mkRequest "tru" "null" TfBool.null) ReadResponse.fresh).State = none ∧
    ∀ dataText : TfString,
      Read stubLib (withJsonObject (mkRequest "tru" "null" TfBool.null) dataText)
        ReadResponse.fresh
      = Read stubLib (mkRequest "tru" "null" TfBool.null) ReadResponse.fresh :=
  C8_schema_parse_failure stubLib (mkRequest "tru" "null" TfBool.null) ReadResponse.fresh
    "invalid character" rfl rfl

/-- Claim C6 (data parse rejection): when the schema text parses and the parser
rejects the data text with message `m`, then for every policy value `Read` adds
exactly one diagnostic, an error whose detail is "Unable to read data, got
error: " followed by `m`, leaves the response state untouched, and returns the
same response for every library that parses alike, whatever its compiler and
validator do: compilation and validation are not reached. -/
theorem C6_data_parse_rejection {J C S : Type} (lib : JsonSchemaLib J C S) (req : ReadRequest)
    (resp : ReadResponse) (schema : J) (m : String)
    (hclean : Diagnostics.HasError resp.Diagnostics = false)
    (hschema : lib.UnmarshalJSON req.Config.JsonSchema.ValueString = .ok schema)
    (hdata : lib.UnmarshalJSON req.Config.JsonObject.ValueString = .error m) :
    (Read lib req resp).Diagnostics = resp.Diagnostics ++
      [NewErrorDiagnostic "Schema Error" ("Unable to read data, got error: " ++ m)] ∧
    (Read lib req resp).State = resp.State ∧
    ∀ (C2 S2 : Type) (lib2 : JsonSchemaLib J C2 S2),
      lib2.UnmarshalJSON = lib.UnmarshalJSON → Read lib2 req resp = Read lib req resp := by
  have hadd := Diagnostics.AddError_of_clean resp.Diagnostics "Schema Error"
    ("Unable to read data, got error: " ++ m) hclean
  refine ⟨?_, ?_, ?_⟩
  · simp [Read, Config.Get, Diagnostics.Append_nil, hclean, hschema, hdata, hadd]
  · simp [Read, Config.Get, Diagnostics.Append_nil, hclean, hschema, hdata, hadd]
  · intro C2 S2 lib2 hparse
    simp [Read, Config.Get, Diagnostics.Append_nil, hclean, hschema, hdata, hadd, hparse]

/-- Witness for C6: the schema `true` parses, the data text `nul` is rejected. -/
theorem C6_data_parse_rejection_witness :
    (Read stubLib (mkRequest "true" "nul" (TfBool.value true)) ReadResponse.fresh).Diagnostics
      = [] ++ [NewErrorDiagnostic "Schema Error"
        ("Unable to read data, got error: " ++ "invalid character")] ∧
    (Read stubLib (mkRequest "true" "nul" (TfBool.value true)) ReadResponse.fresh).State
      = none ∧
    ∀ (C2 S2 : Type) (lib2 : JsonSchemaLib String C2 S2),
      lib2.UnmarshalJSON = stubLib.UnmarshalJSON →
      Read lib2 (mkRequest "true" "nul" (TfBool.value true)) ReadResponse.fresh
      = Read stubLib (mkRequest "true" "nul" (TfBool.value true)) ReadResponse.fresh :=
  C6_data_parse_rejection stubLib (mkRequest "true" "nul" (TfBool.value true))
    ReadResponse.fresh "true" "invalid character" rfl rfl rfl

/-- Claim C7 (schema compile rejection): when both texts parse and registering
the schema fails with message `m`, or registering succeeds and compiling fails
with message `m`, then for every policy value `Read` adds exactly one
diagnostic, an error with summary "Schema Error" whose detail is one of the two
fixed prefixes followed by the full text of `m`, leaves the response state
untouched, and returns the same response whatever the validator is: the
validator is not run. -/
theorem C7_schema_compile_rejection {J C S : Type} (lib : JsonSchemaLib J C S)
    (req : ReadRequest) (resp : ReadResponse) (schema jsonData : J) (m : String)
    (hclean : Diagnostics.HasError resp.Diagnostics = false)
    (hschema : lib.UnmarshalJSON req.Config.JsonSchema.ValueString = .ok schema)
    (hdata : lib.UnmarshalJSON req.Config.JsonObject.ValueString = .ok jsonData)
    (hreject : lib.AddResource lib.NewCompiler "schema.json" schema = .error m ∨
      ∃ compiler, lib.AddResource lib.NewCompiler "schema.json" schema = .ok compiler ∧
        lib.Compile compiler "schema.json" = .error m) :
    (∃ pre, (pre = "Unable to add JSON schema to compiler, got error: " ∨
          pre = "Unable to compile schema, got error: ") ∧
        (Read lib req resp).Diagnostics
          = resp.Diagnostics ++ [NewErrorDiagnostic "Schema Error" (pre ++ m)]) ∧
    (Read lib req resp).State = resp.State ∧
    ∀ validate : S → J → Option String,
      Read { lib with Validate := validate } req resp = Read lib req resp := by
  rcases hreject with hadd | ⟨compiler, hadd, hcompile⟩
  · have hdiag := Diagnostics.AddError_of_clean resp.Diagnostics "Schema Error"
      ("Unable to add JSON schema to compiler, got error: " ++ m) hclean
    refine ⟨⟨"Unable to add JSON schema to compiler, got error: ", Or.inl rfl, ?_⟩, ?_, ?_⟩
    · simp [Read, Config.Get, Diagnostics.Append_nil, hclean, hschema, hdata, hadd, hdiag]
    · simp [Read, Config.Get, Diagnostics.Append_nil, hclean, hschema, hdata, hadd, hdiag]
    · intro validate
      simp [Read, Config.Get, Diagnostics.Append_nil, hclean, hschema, hdata, hadd, hdiag]
  · have hdiag := Diagnostics.AddError_of_clean resp.Diagnostics "Schema Error"
      ("Unable to compile schema, got error: " ++ m) hclean
    refine ⟨⟨"Unable to compile schema, got error: ", Or.inr rfl, ?_⟩, ?_, ?_⟩
    · simp [Read, Config.Get, Diagnostics.Append_nil, hclean, hschema, hdata, hadd, hcompile,
        hdiag]
    · simp [Read, Config.Get, Diagnostics.Append_nil, hclean, hschema, hdata, hadd, hcompile,
        hdiag]
    · intro validate
      simp [Read, Config.Get, Diagnostics.Append_nil, hclean, hschema, hdata, hadd, hcompile,
        hdiag]

/-- Witness for C7: the schema `1` parses and does not compile. -/
theorem C7_schema_compile_rejection_witness :
    (∃ pre, (pre = "Unable to add JSON schema to compiler, got error: " ∨
          pre = "Unable to compile schema, got error: ") ∧
        (Read stubLib (mkRequest "1" "null" TfBool.null) ReadResponse.fresh).Diagnostics
          = [] ++ [NewErrorDiagnostic "Schema Error"
              (pre ++ "schema must be an object or a boolean")]) ∧
    (Read stubLib (mkRequest "1" "null" TfBool.null) ReadResponse.fresh).State = none ∧
    ∀ validate : Bool → String → Option String,
      Read { stubLib with Validate := validate } (mkRequest "1" "null" TfBool.null)
        ReadResponse.fresh
      = Read stubLib (mkRequest "1" "null" TfBool.null) ReadResponse.fresh :=
  C7_schema_compile_rejection stubLib (mkRequest "1" "null" TfBool.null) ReadResponse.fresh
    "1" "null" "schema must be an object or a boolean" rfl rfl rfl
    (Or.inr ⟨[("schema.json", "1")], rfl, rfl⟩)

end TypeValidateJson
